import Mathlib

/-!
Verification development for the OKH RDF-ontology → WikiBase converter
(`rdfont2wb.py` and `wikibase.py`).

The Python source is shallowly embedded: the RDF graph is a list of
triples, the WikiBase HTTP API is an oracle (a list of pre-determined
answers, one consumed per API round trip), and every remote interaction
performed by the code is recorded in an explicit action trace.  Fallible
Python code (raised exceptions, `exit(1)`) is embedded as `Except String`.
-/

set_option maxRecDepth 16000

/- ## Generic string machinery (Python `in`, `re.search`, slicing) -/

/-- `startsWithL needle hay`: `needle` is a prefix of `hay` (on char lists). -/
def startsWithL : List Char → List Char → Bool
  | [], _ => true
  | _ :: _, [] => false
  | c :: cs, h :: hs => c == h && startsWithL cs hs

/-- `hasSubL needle hay`: `needle` occurs as a contiguous substring of `hay`.
Embeds Python's `needle in hay` test on strings. -/
def hasSubL (needle : List Char) : List Char → Bool
  | [] => needle.isEmpty
  | h :: hs => startsWithL needle (h :: hs) || hasSubL needle hs

/-- Python `needle in hay` for strings. -/
def hasSub (needle hay : String) : Bool :=
  hasSubL needle.toList hay.toList

/-- Longest leading run of decimal digits (regex `[0-9]*` at the head). -/
def takeDigits : List Char → List Char
  | [] => []
  | c :: cs => if c.isDigit then c :: takeDigits cs else []

/-- Embeds `re.search` for the two patterns used by `wikibase.py`:
`r"\[\[Item:(Q[0-9]+)"` and `r"\[\[Property:(P[0-9]+)"`.  `tag` is the
literal part (`[[Item:` resp. `[[Property:`), `letter` is `Q` resp. `P`;
the result is the text of capture group 1 (the letter plus at least one
digit) at the leftmost match, or `none` when the pattern does not occur. -/
def patSearchL (tag : List Char) (letter : Char) : List Char → Option String
  | [] => none
  | h :: hs =>
    if startsWithL tag (h :: hs) then
      match (h :: hs).drop tag.length with
      | x :: restCs =>
        if x == letter then
          let ds := takeDigits restCs
          if ds.isEmpty then patSearchL tag letter hs
          else some (String.mk (letter :: ds))
        else patSearchL tag letter hs
      | [] => patSearchL tag letter hs
    else patSearchL tag letter hs

/-- `re.search` on strings (see `patSearchL`). -/
def patSearch (tag : String) (letter : Char) (hay : String) : Option String :=
  patSearchL tag.toList letter hay.toList

/- ## Model of the external `validators.url` predicate

The converter consumes the third-party `validators` library's boolean URL
test as-is.  Its regular expression anchors at the start of the string:
a scheme made of `[a-z0-9.+-]` characters, the literal `://`, then a host
(domain-name characters containing a dot).  This model reproduces that
behaviour on the strings the converter can produce; in particular any
string that does not begin with scheme characters followed by `://`
(for example a string starting with a double quote) is rejected. -/

/-- Characters admitted in the scheme part by the library's regex. -/
def schemeChar (c : Char) : Bool :=
  ('a' ≤ c && c ≤ 'z') || c.isDigit || c == '.' || c == '+' || c == '-'

/-- Characters admitted in a domain-name host. -/
def hostChar (c : Char) : Bool :=
  c.isAlphanum || c == '.' || c == '-'

/-- Model of the external `validators.url` boolean predicate. -/
def validators_url (s : String) : Bool :=
  let cs := s.toList
  let scheme := cs.takeWhile schemeChar
  let rest := cs.drop scheme.length
  startsWithL "://".toList rest &&
    (let afterScheme := rest.drop 3
     let host := afterScheme.takeWhile (fun c => !(c == '/'))
     !host.isEmpty && host.all hostChar && host.any (fun c => c == '.'))

example : validators_url "http://example.org" = true := by decide
example : validators_url "not a url" = false := by decide

/- ## RDF data model (the `rdflib` values the converter manipulates) -/

/-- An RDF URI reference or blank node.  `uri` holds what Python's
`str(node)` returns (for a blank node: its label without the `_:`). -/
structure Node where
  isBlank : Bool
  uri : String
deriving DecidableEq, Repr

/-- An RDF literal: its text (`.value`) and optional language tag
(`.language`).  Datatyped literals and escaping do not occur in the
ontology fragments the claims are about and are not modelled. -/
structure Lit where
  value : String
  lang : Option String
deriving DecidableEq, Repr

/-- An object position of a triple: a literal or a node reference. -/
inductive Obj where
  | lit (l : Lit)
  | node (n : Node)
deriving DecidableEq, Repr

/-- A non-blank node for a plain URI (predicates are URIRefs). -/
def uriNode (u : String) : Node := ⟨false, u⟩

/-- Python `str(...)` on a triple object. -/
def strObj : Obj → String
  | .lit l => l.value
  | .node n => n.uri

/-- `rdflib`'s `.n3()` serialization: literals are wrapped in double
quotes (followed by `@lang` when tagged), URIRefs in angle brackets,
blank nodes are prefixed `_:`. -/
def n3Obj : Obj → String
  | .lit l => "\"" ++ l.value ++ "\"" ++ (match l.lang with
      | some lg => "@" ++ lg
      | none => "")
  | .node n => if n.isBlank then "_:" ++ n.uri else "<" ++ n.uri ++ ">"

/-- The in-memory triple store: `(subject, predicate URI, object)`
triples in iteration order. -/
structure Graph where
  triples : List (Node × String × Obj)
deriving DecidableEq, Repr

/-- `graph.subjects()`: one subject per triple, duplicates included. -/
def Graph.subjectsList (g : Graph) : List Node :=
  g.triples.map (fun t => t.1)

/-- `graph.objects(subj, pred)` in iteration order. -/
def objectsOf (g : Graph) (s : Node) (p : String) : List Obj :=
  g.triples.filterMap (fun t => if t.1 = s ∧ t.2.1 = p then some t.2.2 else none)

/- ## Vocabulary constants -/

def RDF_type : String := "http://www.w3.org/1999/02/22-rdf-syntax-ns#type"
def RDFS_label : String := "http://www.w3.org/2000/01/rdf-schema#label"
def RDFS_comment : String := "http://www.w3.org/2000/01/rdf-schema#comment"
def RDFS_range : String := "http://www.w3.org/2000/01/rdf-schema#range"
def RDFS_domain : String := "http://www.w3.org/2000/01/rdf-schema#domain"
def SKOS_prefLabel : String := "http://www.w3.org/2004/02/skos/core#prefLabel"
def SKOS_definition : String := "http://www.w3.org/2004/02/skos/core#definition"
def DCTERMS_title : String := "http://purl.org/dc/terms/title"
def DCTERMS_description : String := "http://purl.org/dc/terms/description"
def DC_title : String := "http://purl.org/dc/elements/1.1/title"
def DC_description : String := "http://purl.org/dc/elements/1.1/description"
def OWL_Class : String := "http://www.w3.org/2002/07/owl#Class"
def OWL_ObjectProperty : String := "http://www.w3.org/2002/07/owl#ObjectProperty"
def OWL_DatatypeProperty : String := "http://www.w3.org/2002/07/owl#DatatypeProperty"
def OWL_Ontology : String := "http://www.w3.org/2002/07/owl#Ontology"
def OWL_cardinality : String := "http://www.w3.org/2002/07/owl#cardinality"
def OWL_maxCardinality : String := "http://www.w3.org/2002/07/owl#maxCardinality"
def OWL_minCardinality : String := "http://www.w3.org/2002/07/owl#minCardinality"
def BASE_URI : String := "https://github.com/OPEN-NEXT/OKH-LOSH/raw/master/OKH-LOSH.ttl"

/-- `list(graph.objects(subj, RDF.type))`. -/
def typesOf (g : Graph) (s : Node) : List Obj :=
  objectsOf g s RDF_type

/-- The `owl:Class` type object as it appears in a type list. -/
def owlClassO : Obj := .node (uriNode OWL_Class)
def owlObjPropO : Obj := .node (uriNode OWL_ObjectProperty)
def owlDtPropO : Obj := .node (uriNode OWL_DatatypeProperty)
def owlOntologyO : Obj := .node (uriNode OWL_Ontology)

/- ## `wikibase.py`: the WikiBase session -/

/-- One remote answer to an `api.php` round trip: a success carrying the
resulting entity id (`ans['entity']['id']`), or an error with its
`code` and `info` fields. -/
inductive ApiAns where
  | ok (entityId : String)
  | err (code : String) (info : String)
deriving DecidableEq, Repr

/-- One remote interaction performed by the session, as recorded in the
action trace: creation of a new entity (`params['new']`), an edit of an
existing entity (`params['id']`), or a clear (`wbeditentity` with
`clear=true` issued by `clear_thing`). -/
inductive WBAction where
  | newEntity (item : Bool)
  | editEntity (wbId : String)
  | clearEntity (partId : String)
deriving DecidableEq, Repr

/-- The request parameters chosen by `create_wb_thing_raw`: `new=...`
plus `clear=true` when no id is given, `id=...` otherwise. -/
def editAction (wbId : Option String) (item : Bool) : WBAction :=
  match wbId with
  | none => .newEntity item
  | some i => .editEntity i

def clearFailMsg (partId code info : String) : String :=
  "Failed clearing Item/Property with ID " ++ partId ++ ", reason: " ++
    code ++ " - " ++ info

def createFailMsg (typeStr code info : String) : String :=
  "Failed creating " ++ typeStr ++ ", reason: " ++ code ++ " - " ++ info

/-- Artefact of the oracle embedding: the pre-determined answer list ran
out.  Concrete runs in the theorems always supply enough answers. -/
def oracleExhausted : String := "model: answer oracle exhausted"

/-- `WBSession.clear_thing`: one API round trip; an `error` member in the
answer raises, otherwise the entity is cleared.  Consumes one oracle
answer and records the clear in the trace. -/
def clear_thing (partId : String) (answers : List ApiAns) (tr : List WBAction) :
    Except String (List ApiAns × List WBAction) :=
  match answers with
  | [] => .error oracleExhausted
  | a :: rest =>
    match a with
    | .ok _ => .ok (rest, tr ++ [WBAction.clearEntity partId])
    | .err code info => .error (clearFailMsg partId code info)

/-- `WBSession.create_wb_thing_raw`: posts `wbeditentity` with the given
`data` (opaque here: the code only serializes it), creating a new entity
when `wbId = none` and editing `wbId` otherwise.  On an answer whose
error info contains `' already has '` (a naming collision) it extracts
the conflicting id with `re.search` (`[[Item:Q...` / `[[Property:P...`),
clears that entity and recurses targeting it; the clearing round trip is
inlined here (exactly the body of `clear_thing`) so that the recursion
is structural on the answer oracle.  Any other error raises. -/
def create_wb_thing_raw {α : Type} (item : Bool) (data : α) :
    Option String → List ApiAns → List WBAction →
    Except String (String × List ApiAns × List WBAction)
  | _, [], _ => .error oracleExhausted
  | wbId, ans :: rest, tr =>
    let tr1 := tr ++ [editAction wbId item]
    match ans with
    | .ok eid => .ok (eid, rest, tr1)
    | .err code info =>
      if hasSub " already has " info then
        match patSearch (if item then "[[Item:" else "[[Property:")
            (if item then 'Q' else 'P') info with
        | none => .error "AttributeError: NoneType object has no attribute group"
        | some newId =>
          match rest with
          | [] => .error oracleExhausted
          | clearAns :: rest2 =>
            match clearAns with
            | .err cc ci => .error (clearFailMsg newId cc ci)
            | .ok _ =>
              create_wb_thing_raw item data (some newId) rest2
                (tr1 ++ [WBAction.clearEntity newId])
      else .error (createFailMsg (if item then "Item" else "Property") code info)

/-- The collision branch of `create_wb_thing_raw` agrees with calling
`clear_thing` and retrying (the Python control flow). -/
theorem create_raw_collision_is_clear_then_retry {α : Type} (item : Bool)
    (data : α) (code info newId : String) (rest : List ApiAns)
    (tr : List WBAction)
    (h1 : hasSub " already has " info = true)
    (h2 : patSearch (if item then "[[Item:" else "[[Property:")
        (if item then 'Q' else 'P') info = some newId) :
    create_wb_thing_raw item data none (ApiAns.err code info :: rest) tr =
      match clear_thing newId rest (tr ++ [editAction none item]) with
      | .error e => .error e
      | .ok (rest2, tr2) => create_wb_thing_raw item data (some newId) rest2 tr2 := by
  cases rest with
  | nil => simp [create_wb_thing_raw, clear_thing, h1, h2]
  | cons a rest =>
    cases a with
    | ok eid => simp [create_wb_thing_raw, clear_thing, h1, h2]
    | err cc ci => simp [create_wb_thing_raw, clear_thing, h1, h2]

/- ## `wikibase.py`: `create_wb_thing` (label / description payload) -/

/-- A Python value standing in a labels/descriptions dict: the converter
passes strings, but `create_wb_thing` also branches on lists
(`isinstance(..., list)`), so both shapes are embedded. -/
inductive PyVal where
  | s (v : String)
  | l (vs : List String)
deriving DecidableEq, Repr

/-- One `{'language': ..., 'value': ...}` record of the request payload. -/
structure LangVal where
  language : String
  value : PyVal
deriving DecidableEq, Repr

/-- The `data` dict built by `create_wb_thing`: language-keyed label and
description records, plus `datatype` for properties. -/
structure WBData where
  labels : List (String × LangVal)
  descriptions : List (String × LangVal)
  datatype : Option String
deriving DecidableEq, Repr

/-- Python dict lookup (`d[k]` as an option). -/
def lookupPy : List (String × PyVal) → String → Option PyVal
  | [], _ => none
  | (k0, v0) :: rest, k => if k0 = k then some v0 else lookupPy rest k

/-- Python dict update `d[k] = v`: replace in place, else append. -/
def dictSetLV : List (String × LangVal) → String → LangVal → List (String × LangVal)
  | [], k, v => [(k, v)]
  | (k0, v0) :: rest, k, v =>
    if k0 = k then (k0, v) :: rest else (k0, v0) :: dictSetLV rest k v

/-- The labels loop body of `create_wb_thing` for one language: a string
value is stored as-is; a list value is iterated with the same dict key,
so only its last element survives (an empty list stores nothing). -/
def labelEntry (lang : String) (v : PyVal) : Option LangVal :=
  match v with
  | .s x => some ⟨lang, .s x⟩
  | .l [] => none
  | .l (x :: xs) => some ⟨lang, .s ((x :: xs).getLastD "")⟩

/-- The descriptions loop body of `create_wb_thing` for one language.
The branch condition inspects `labels[desc_lang]` (not the description
value): a missing label language raises `KeyError`.  When the label
entry is a list, the loop indexes `descriptions[desc_lang][i]` for
`i < len(descriptions[desc_lang])`, so the last index survives — for a
string description that is its last character, untruncated.  When the
label entry is a string, a string description longer than 250
characters is truncated to its first 247 characters plus `"..."`;
a list description of more than 250 elements makes `desc[:247] + '...'`
a list-plus-string concatenation, a `TypeError`. -/
def descEntry (labels : List (String × PyVal)) (lang : String) (dv : PyVal) :
    Except String (Option LangVal) :=
  match lookupPy labels lang with
  | none => .error ("KeyError: " ++ lang)
  | some (.l _) =>
    match dv with
    | .s d =>
      if d.isEmpty then .ok none
      else .ok (some ⟨lang, .s (String.mk [d.toList.getLastD ' '])⟩)
    | .l [] => .ok none
    | .l (x :: xs) => .ok (some ⟨lang, .s ((x :: xs).getLastD "")⟩)
  | some (.s _) =>
    match dv with
    | .s d =>
      .ok (some ⟨lang, .s (if d.length > 250 then d.take 247 ++ "..." else d)⟩)
    | .l ds =>
      if ds.length > 250 then
        .error "TypeError: can only concatenate list (not str) to list"
      else .ok (some ⟨lang, .l ds⟩)

/-- The labels loop of `create_wb_thing`. -/
def buildLabels : List (String × PyVal) → List (String × LangVal) →
    List (String × LangVal)
  | [], acc => acc
  | (lang, v) :: rest, acc =>
    match labelEntry lang v with
    | none => buildLabels rest acc
    | some lv => buildLabels rest (dictSetLV acc lang lv)

/-- The descriptions loop of `create_wb_thing` (runs after the labels
loop; the first failing language aborts the call). -/
def buildDescs (labels : List (String × PyVal)) :
    List (String × PyVal) → List (String × LangVal) →
    Except String (List (String × LangVal))
  | [], acc => .ok acc
  | (lang, dv) :: rest, acc =>
    match descEntry labels lang dv with
    | .error e => .error e
    | .ok none => buildDescs labels rest acc
    | .ok (some lv) => buildDescs labels rest (dictSetLV acc lang lv)

/-- The pure payload construction performed by `create_wb_thing` before
any API interaction (`datatype` is set only for properties, from
`property_type`, default `'string'`). -/
def build_wb_data (item : Bool) (labels descriptions : List (String × PyVal))
    (property_type : String) : Except String WBData :=
  match buildDescs labels descriptions [] with
  | .error e => .error e
  | .ok ds =>
    .ok ⟨buildLabels labels [], ds, if item then none else some property_type⟩

/-- `WBSession.create_wb_thing`: builds the payload, then posts it via
`create_wb_thing_raw` with no target id (a fresh entity). -/
def create_wb_thing (item : Bool) (labels descriptions : List (String × PyVal))
    (property_type : String) (answers : List ApiAns) (tr : List WBAction) :
    Except String (String × List ApiAns × List WBAction) :=
  match build_wb_data item labels descriptions property_type with
  | .error e => .error e
  | .ok data => create_wb_thing_raw item data none answers tr

/- ## `rdfont2wb.py`: predicate lists and label aggregation -/

/-- Python `a or b` on URIRef values: a URIRef is truthy iff its string
is non-empty, so the first operand short-circuits whenever non-empty. -/
def pyOrStr (a b : String) : String := if a = "" then b else a

/-- `get_label_preds()`: a one-element list — the `or`-chain collapses to
its first (truthy) member, `rdfs:label`. -/
def get_label_preds : List String :=
  [pyOrStr RDFS_label (pyOrStr SKOS_prefLabel (pyOrStr DCTERMS_title DC_title))]

/-- `get_desc_preds()`: likewise collapses to `rdfs:comment`. -/
def get_desc_preds : List String :=
  [pyOrStr RDFS_comment
    (pyOrStr SKOS_definition (pyOrStr DCTERMS_description DC_description))]

/-- `get_non_claim_preds()` (`rdfs:range`/`rdfs:domain` are commented out
in the source and hence absent). -/
def get_non_claim_preds : List String :=
  get_label_preds ++ get_desc_preds ++
    [RDF_type, OWL_cardinality, OWL_maxCardinality, OWL_minCardinality]

/-- String-valued dict lookup. -/
def lookupStr : List (String × String) → String → Option String
  | [], _ => none
  | (k0, v0) :: rest, k => if k0 = k then some v0 else lookupStr rest k

/-- String-valued dict update `d[k] = v`. -/
def dictSet : List (String × String) → String → String → List (String × String)
  | [], k, v => [(k, v)]
  | (k0, v0) :: rest, k, v =>
    if k0 = k then (k0, v) :: rest else (k0, v0) :: dictSet rest k v

/-- One step of the label/description aggregation loops of
`create_ont_wb_thing`: key the literal by its language tag (default
language when untagged) and append its text to any existing text for
that language, separated by `sep`.  A non-literal object has no
`.language` attribute: `AttributeError`. -/
def addLangText (defaultLang sep : String) (m : List (String × String))
    (o : Obj) : Except String (List (String × String)) :=
  match o with
  | .lit l =>
    let lng := l.lang.getD defaultLang
    .ok (dictSet m lng
      ((match lookupStr m lng with
        | some prev => prev ++ sep
        | none => "") ++ l.value))
  | .node _ => .error "AttributeError: no attribute language"

/-- Aggregation over the objects of one predicate. -/
def collectList (defaultLang sep : String) :
    List (String × String) → List Obj → Except String (List (String × String))
  | m, [] => .ok m
  | m, o :: os =>
    match addLangText defaultLang sep m o with
    | .error e => .error e
    | .ok m2 => collectList defaultLang sep m2 os

/-- The nested label (resp. description) aggregation loops of
`create_ont_wb_thing` over the predicate list. -/
def collectLangTexts (g : Graph) (s : Node) (preds : List String)
    (sep defaultLang : String) : Except String (List (String × String)) :=
  go [] preds
where
  go (m : List (String × String)) : List String →
      Except String (List (String × String))
    | [] => .ok m
    | p :: ps =>
      match collectList defaultLang sep m (objectsOf g s p) with
      | .error e => .error e
      | .ok m2 => go m2 ps

/- ## `rdfont2wb.py`: link store, classification, entity creation -/

/-- The converter's configured separators and default language
(`self.default_language`, `self.label_sep`, `self.description_sep`). -/
def default_language : String := "en"
def label_sep : String := "\n\n"
def description_sep : String := "\n\n"

/-- The `ont2wb` link graph: `(node, schema:identifier, literal)` records
in insertion order, with the identifier literal's string form. -/
abbrev Store := List (Node × String)

/-- `list(self.ont2wb.objects(rdf_ref, SCHEMA.identifier))` (as strings,
via `str(...)`). -/
def storeObjects (st : Store) (r : Node) : List String :=
  st.filterMap (fun p => if p.1 = r then some p.2 else none)

/-- `self.ont2wb.add((subj, SCHEMA.identifier, rdflib.Literal(wb_id)))`. -/
def storeAdd (st : Store) (r : Node) (v : String) : Store :=
  st ++ [(r, v)]

/-- `str(rdflib.Literal(wb_id))` for `wb_id` a string or `None`:
`Literal(None)` stringifies to `"None"`. -/
def litOfOptStr : Option String → String
  | none => "None"
  | some s => s

def resolveFailMsg (r : Node) : String :=
  "We do not have a (single) WikiBase ID for RDF reference " ++ r.uri

/-- `RdfOntology2WikiBaseConverter.rdf2wb_id`: returns the stored
identifier when exactly one record exists (the `wb_ids is not None`
guard in the source is always true and is dropped); otherwise raises
when `fail_if_missing`, else returns `None`. -/
def rdf2wb_id (st : Store) (ref : Node) (fail_if_missing : Bool) :
    Except String (Option String) :=
  let wb_ids := storeObjects st ref
  if wb_ids.length = 1 then .ok (some (wb_ids.headD ""))
  else if fail_if_missing then .error (resolveFailMsg ref)
  else .ok none

/-- `RdfOntology2WikiBaseConverter.skip_subj`: blank node, or URI equal
to the declared base URI. -/
def skip_subj (s : Node) : Bool :=
  s.isBlank || s.uri == BASE_URI

def unknownTypeMsg (s : Node) : String :=
  "RDF subject has unknown type: " ++ s.uri

/-- `RdfOntology2WikiBaseConverter.create_ont_wb_thing`: aggregate
labels and descriptions, classify by the declared types (`owl:Class` →
item, `owl:ObjectProperty`/`owl:DatatypeProperty` → property,
`owl:Ontology` → `None` without any remote call, anything else →
`exit(1)`), then create the entity remotely. -/
def create_ont_wb_thing (g : Graph) (subj : Node) (answers : List ApiAns)
    (tr : List WBAction) :
    Except String (Option String × List ApiAns × List WBAction) :=
  match collectLangTexts g subj get_label_preds label_sep default_language with
  | .error e => .error e
  | .ok lbs =>
    match collectLangTexts g subj get_desc_preds description_sep
        default_language with
    | .error e => .error e
    | .ok dscs =>
      let types := typesOf g subj
      if owlClassO ∈ types then
        match create_wb_thing true (lbs.map (fun p => (p.1, PyVal.s p.2)))
            (dscs.map (fun p => (p.1, PyVal.s p.2))) "string" answers tr with
        | .error e => .error e
        | .ok (i, a2, t2) => .ok (some i, a2, t2)
      else if owlObjPropO ∈ types ∨ owlDtPropO ∈ types then
        match create_wb_thing false (lbs.map (fun p => (p.1, PyVal.s p.2)))
            (dscs.map (fun p => (p.1, PyVal.s p.2))) "string" answers tr with
        | .error e => .error e
        | .ok (i, a2, t2) => .ok (some i, a2, t2)
      else if owlOntologyO ∈ types then .ok (none, answers, tr)
      else .error (unknownTypeMsg subj)

/-- The entity-creation pass of `convert` (its first `for subj in
self.graph.subjects()` loop): skip blank/base subjects, skip subjects
that already have a link record, otherwise create the entity and record
`rdflib.Literal(wb_id)` — the string `"None"` when
`create_ont_wb_thing` returned `None`. -/
def convert_creation_pass (g : Graph) :
    List Node → Store → List ApiAns → List WBAction →
    Except String (Store × List ApiAns × List WBAction)
  | [], st, answers, tr => .ok (st, answers, tr)
  | s :: rest, st, answers, tr =>
    if skip_subj s then convert_creation_pass g rest st answers tr
    else
      let wb_ids := storeObjects st s
      if wb_ids.length > 0 then convert_creation_pass g rest st answers tr
      else
        match create_ont_wb_thing g s answers tr with
        | .error e => .error e
        | .ok (wbIdOpt, a2, t2) =>
          convert_creation_pass g rest (storeAdd st s (litOfOptStr wbIdOpt)) a2 t2

/-- The classification that the pipeline applies to an ontology node:
`convert` consults `skip_subj` before ever calling
`create_ont_wb_thing`, whose type dispatch then decides item / property
/ skip (`owl:Ontology`) / fatal (`exit(1)`).  Extracted from
`convert` + `skip_subj` + `create_ont_wb_thing`. -/
inductive NodeClass where
  | item
  | property
  | skip
  | fatal
deriving DecidableEq, Repr

def classify_subj (g : Graph) (s : Node) : NodeClass :=
  if skip_subj s then .skip
  else
    let types := typesOf g s
    if owlClassO ∈ types then .item
    else if owlObjPropO ∈ types ∨ owlDtPropO ∈ types then .property
    else if owlOntologyO ∈ types then .skip
    else .fatal

/- ## `rdfont2wb.py`: the claim value typer (`create_claim`) -/

/-- The `datavalue.value` member of a claim's main snak: the literal
text for string/url claims, or the structured entity reference
`{'entity-type', 'id', 'numeric-id'}`. -/
inductive ClaimValue where
  | str (v : String)
  | entityRef (entityType : String) (id : String) (numericId : Nat)
deriving DecidableEq, Repr

/-- One `add_wb_thing_claims` call as emitted by `create_claim`: the
target entity, the resolved property id, and the main snak fields. -/
structure ClaimCall where
  wbId : String
  prop : String
  snaktype : String
  datatype : String
  value : ClaimValue
  valueType : String
  rank : String
deriving DecidableEq, Repr

/-- `re.sub(r".*[#/]", "", s)`: the greedy match removes everything up
to and including the last `#` or `/`. -/
def afterLastSep (s : String) : String :=
  String.mk ((s.toList.reverse.takeWhile (fun c => !(c == '#' || c == '/'))).reverse)

/-- Python `int(s)` on the digit tail `obj_id[1:]` (a `ValueError` when
the tail is empty or not all digits). -/
def parseNumericId (s : String) : Option Nat :=
  let t := (s.toList.drop 1)
  if t.isEmpty then none
  else if t.all Char.isDigit then
    some (t.foldl (fun n c => n * 10 + (c.toNat - 48)) 0)
  else none

/-- `RdfOntology2WikiBaseConverter.create_claim`: emit no claim for
non-claim predicates and for the excluded `P1647` mapping; resolve the
predicate (required); classify the object — a literal is url-typed iff
`validators.url` accepts its `.n3()` serialization, else string-typed; a
node object is classified by its declared types, falling back to the
case of the first character of its stripped `.n3()` name; entity-valued
claims resolve the object (required) and embed its numeric id.  Returns
the list (empty or singleton) of emitted `add_wb_thing_claims` calls.
The `subj` parameter is unused, as in the source. -/
def create_claim (g : Graph) (st : Store) (wb_id : String) (subj : Node)
    (pred : String) (obj : Obj) : Except String (List ClaimCall) :=
  if pred ∈ get_non_claim_preds then .ok []
  else
    match rdf2wb_id st (uriNode pred) true with
    | .error e => .error e
    | .ok predIdO =>
      let pred_wb_id := predIdO.getD ""
      if pred_wb_id = "P1647" then .ok []
      else
        match obj with
        | .lit _ =>
          let value_type := if validators_url (n3Obj obj) then "url" else "string"
          .ok [⟨wb_id, pred_wb_id, "value", value_type, .str (strObj obj),
                value_type, "normal"⟩]
        | .node o =>
          let types := typesOf g o
          let vtE : Except String String :=
            if owlClassO ∈ types then .ok "item"
            else if owlObjPropO ∈ types ∨ owlDtPropO ∈ types then .ok "property"
            else
              match (afterLastSep (n3Obj obj)).toList with
              | [] => .error "IndexError: string index out of range"
              | c :: _ => .ok (if c.isUpper then "item" else "property")
          match vtE with
          | .error e => .error e
          | .ok value_type =>
            match rdf2wb_id st o true with
            | .error e => .error e
            | .ok objIdO =>
              let obj_id := objIdO.getD ""
              match parseNumericId obj_id with
              | none => .error ("ValueError: invalid literal for int: " ++ obj_id)
              | some num =>
                .ok [⟨wb_id, pred_wb_id, "value", "wikibase-" ++ value_type,
                      .entityRef value_type obj_id num, "wikibase-entityid",
                      "normal"⟩]

/-- The body of the inner loop of `convert`'s second pass (claim
creation): `rdfs:range` and `rdfs:domain` triples are passed over with
at most a debug print; everything else goes to `create_claim`. -/
def handle_triple (g : Graph) (st : Store) (wb_id : String) (subj : Node)
    (pred : String) (obj : Obj) : Except String (List ClaimCall) :=
  if pred = RDFS_range then .ok []
  else if pred = RDFS_domain then .ok []
  else create_claim g st wb_id subj pred obj

/- ## Shared helper lemmas -/

theorem storeObjects_append (a b : Store) (r : Node) :
    storeObjects (a ++ b) r = storeObjects a r ++ storeObjects b r := by
  simp [storeObjects, List.filterMap_append]

theorem buildDescs_err_of_mem (labels : List (String × PyVal))
    (descs : List (String × PyVal)) (acc : List (String × LangVal))
    (lang : String) (dv : PyVal) (hm : (lang, dv) ∈ descs)
    (he : ∃ e0, descEntry labels lang dv = .error e0) :
    ∃ e, buildDescs labels descs acc = .error e := by
  induction descs generalizing acc with
  | nil => simp at hm
  | cons hd tl ih =>
    obtain ⟨l0, d0⟩ := hd
    rcases List.mem_cons.mp hm with hm0 | hmtl
    · obtain ⟨e0, he0⟩ := he
      have h1 : lang = l0 := congrArg Prod.fst hm0
      have h2 : dv = d0 := congrArg Prod.snd hm0
      subst h1; subst h2
      exact ⟨e0, by simp [buildDescs, he0]⟩
    · cases hc : descEntry labels l0 d0 with
      | error e => exact ⟨e, by simp [buildDescs, hc]⟩
      | ok o =>
        cases o with
        | none => simpa [buildDescs, hc] using ih acc hmtl
        | some lv => simpa [buildDescs, hc] using ih (dictSetLV acc l0 lv) hmtl

/- ## Claim C5 — link-store resolution -/

/-- A duplicate-record store used to settle C5. -/
def nC5 : Node := uriNode "http://example.org/dup"

/-- C5 counterexample: the claim states that a duplicate link record is
"treated as a fatal data-integrity fault, not silently resolved"; but
with `fail_if_missing = False` the code returns `None` for a node with
two records — no error is raised, exactly as for a missing record.
(The first conjunct is the non-fatal duplicate outcome; the second shows
the `fail_if_missing = True` outcome is the generic resolution error,
identical to the missing-record message.) -/
theorem C5_duplicate_not_fatal_when_optional :
    rdf2wb_id [(nC5, "Q1"), (nC5, "Q2")] nC5 false = .ok none
  ∧ rdf2wb_id [(nC5, "Q1"), (nC5, "Q2")] nC5 true
      = .error (resolveFailMsg nC5) := by
  exact ⟨rfl, rfl⟩

/-- C5 (amended): `rdf2wb_id` returns the stored identifier exactly when
a unique record exists; with no record it errors when required and
returns empty otherwise; with more than one record it never returns an
identifier — but the duplicate case is only an error when the lookup is
required (raising the same resolution error as the missing case), and
silently yields empty when it is not. -/
theorem C5_resolve_characterization (st : Store) (n : Node) (req : Bool) :
    ((storeObjects st n).length = 1 →
      rdf2wb_id st n req = .ok (some ((storeObjects st n).headD "")))
  ∧ ((storeObjects st n).length ≠ 1 → req = true →
      rdf2wb_id st n req = .error (resolveFailMsg n))
  ∧ ((storeObjects st n).length ≠ 1 → req = false →
      rdf2wb_id st n req = .ok none)
  ∧ (1 < (storeObjects st n).length →
      ∀ x, rdf2wb_id st n req ≠ .ok (some x)) := by
  refine ⟨?_, ?_, ?_, ?_⟩
  · intro h; simp [rdf2wb_id, h]
  · intro h hr; subst hr; simp [rdf2wb_id, h]
  · intro h hr; subst hr; simp [rdf2wb_id, h]
  · intro h x
    have hne : (storeObjects st n).length ≠ 1 := by omega
    cases req with
    | true => simp [rdf2wb_id, hne]
    | false => simp [rdf2wb_id, hne]

/-- Witness for C5: a unique record resolves to its identifier. -/
theorem C5_resolve_characterization_witness :
    rdf2wb_id [(nC5, "Q9")] nC5 true = .ok (some "Q9") :=
  (C5_resolve_characterization [(nC5, "Q9")] nC5 true).1 (by decide)

/- ## Claim C6 — label aggregation -/

/-- The node carrying the label literals of the C6 scenario. -/
def nC6 : Node := uriNode "http://example.org/thing"

/-- A graph whose node has three `rdfs:label` literals: two tagged `en`,
one tagged `fr` (in that insertion order). -/
def gC6 (a b c : String) : Graph :=
  ⟨[(nC6, RDFS_label, .lit ⟨a, some "en"⟩),
    (nC6, RDFS_label, .lit ⟨b, some "en"⟩),
    (nC6, RDFS_label, .lit ⟨c, some "fr"⟩)]⟩

/-- A graph whose node has one untagged `rdfs:label` literal. -/
def gC6u (a : String) : Graph := ⟨[(nC6, RDFS_label, .lit ⟨a, none⟩)]⟩

/-- C6: label aggregation keys each literal by its language tag
(untagged literals default to the configured default language `en`) and
appends it to existing text for that language with the two-newline
separator; in particular `("Foo"@en, "Bar"@en, "Baz"@fr)` aggregates to
`{en: "Foo\n\nBar", fr: "Baz"}`. -/
theorem C6_label_aggregation :
    (∀ a b c : String,
      collectLangTexts (gC6 a b c) nC6 get_label_preds label_sep default_language
        = .ok [("en", (a ++ "\n\n") ++ b), ("fr", c)])
  ∧ (∀ a : String,
      collectLangTexts (gC6u a) nC6 get_label_preds label_sep default_language
        = .ok [("en", a)])
  ∧ collectLangTexts (gC6 "Foo" "Bar" "Baz") nC6 get_label_preds label_sep
      default_language = .ok [("en", "Foo\n\nBar"), ("fr", "Baz")] := by
  exact ⟨fun a b c => rfl, fun a => rfl, rfl⟩

/- ## Claim C7 — description truncation -/

/-- A 260-character description text. -/
def sampleLongDesc : String := String.mk (List.replicate 260 'a')

/-- C7 counterexample: the claim states that *every* description longer
than 250 characters is truncated to its first 247 characters plus
`"..."` before being sent; but when the labels entry for the same
language is a list, `create_wb_thing` takes the per-index branch and the
value sent is the description's last character — a 260-character
description is sent as the one-character string `"a"`, untruncated. -/
theorem C7_list_label_entry_skips_truncation :
    build_wb_data true [("en", PyVal.l ["x"])] [("en", PyVal.s sampleLongDesc)]
        "string"
      = .ok ⟨[("en", ⟨"en", PyVal.s "x"⟩)], [("en", ⟨"en", PyVal.s "a"⟩)], none⟩
  ∧ ("a" : String) ≠ sampleLongDesc.take 247 ++ "..." := by
  exact ⟨rfl, by decide⟩

/-- C7 (amended): when the labels entry for the description's language
is a plain string — the only shape this codebase ever passes — a string
description is truncated to its first 247 characters plus `"..."`
exactly when longer than 250 characters, and sent unchanged otherwise
(`descEntry` is the per-language body of the descriptions loop of
`create_wb_thing`); when that labels entry is a list the description is
instead sent as its last element/character without truncation. -/
theorem C7_truncation_string_label (labels : List (String × PyVal))
    (lang lv d : String) (h : lookupPy labels lang = some (PyVal.s lv)) :
    descEntry labels lang (PyVal.s d)
      = .ok (some ⟨lang, PyVal.s (if d.length > 250
          then d.take 247 ++ "..." else d)⟩) := by
  simp [descEntry, h]

/-- Witness for C7: the 260-character description is truncated to its
first 247 characters plus the ellipsis marker. -/
theorem C7_truncation_string_label_witness :
    descEntry [("en", PyVal.s "lbl")] "en" (PyVal.s sampleLongDesc)
      = .ok (some ⟨"en", PyVal.s (sampleLongDesc.take 247 ++ "...")⟩) := by
  have h := C7_truncation_string_label [("en", PyVal.s "lbl")] "en" "lbl"
    sampleLongDesc rfl
  rw [h, if_pos (by decide : sampleLongDesc.length > 250)]

/- ## Claim C8 — `rdfs:range` / `rdfs:domain` emit no claims -/

/-- C8: every triple whose predicate is `rdfs:range` or `rdfs:domain` is
passed over by the claim-creation pass without any claim-creation call,
although neither predicate is in the non-claim predicate set that
`create_claim` consults. -/
theorem C8_range_domain_no_claim :
    (∀ (g : Graph) (st : Store) (wb : String) (s : Node) (o : Obj),
      handle_triple g st wb s RDFS_range o = .ok [] ∧
      handle_triple g st wb s RDFS_domain o = .ok [])
  ∧ RDFS_range ∉ get_non_claim_preds
  ∧ RDFS_domain ∉ get_non_claim_preds := by
  exact ⟨fun g st wb s o => ⟨rfl, rfl⟩, by decide, by decide⟩

/- ## Claim C10 — descriptions language missing from labels -/

/-- C10: if the descriptions map has a language absent from the labels
map, `create_wb_thing` fails with a lookup error (`KeyError`, from the
descriptions loop inspecting `labels[desc_lang]`) and makes no remote
call: the failure is the same for every answer oracle, i.e. independent
of anything the remote would reply. -/
theorem C10_desc_lang_missing_label_fails (item : Bool)
    (labels descriptions : List (String × PyVal)) (ptype : String)
    (lang : String) (dv : PyVal) (h1 : (lang, dv) ∈ descriptions)
    (h2 : lookupPy labels lang = none) :
    ∃ msg, ∀ (answers : List ApiAns) (tr : List WBAction),
      create_wb_thing item labels descriptions ptype answers tr
        = Except.error msg := by
  have he : ∃ e0, descEntry labels lang dv = .error e0 :=
    ⟨"KeyError: " ++ lang, by simp [descEntry, h2]⟩
  obtain ⟨e, hb⟩ := buildDescs_err_of_mem labels descriptions [] lang dv h1 he
  exact ⟨e, fun answers tr => by simp [create_wb_thing, build_wb_data, hb]⟩

/-- Witness for C10: a `fr` description with only an `en` label fails
for every oracle. -/
theorem C10_desc_lang_missing_label_fails_witness :
    ∃ msg, ∀ (answers : List ApiAns) (tr : List WBAction),
      create_wb_thing true [("en", PyVal.s "L")] [("fr", PyVal.s "D")] "string"
        answers tr = Except.error msg :=
  C10_desc_lang_missing_label_fails true [("en", PyVal.s "L")]
    [("fr", PyVal.s "D")] "string" "fr" (PyVal.s "D") (by simp) rfl

/- ## Claim C1 — collision clear-and-recreate protocol -/

/-- A collision error info text of the shape the remote emits, embedding
the conflicting entity as a bracketed reference. -/
def collisionInfo : String :=
  "Item [[Item:Q42|Q42]] already has label \"thing\" associated with language code en."

/-- C1 counterexample: the claim states the clear-and-recreate protocol
runs exactly once and a second collision on the retry is fatal; but the
code recurses unconditionally, so with the oracle answering collision,
clear-ok, collision, clear-ok, success, the call clears and retries a
second time and succeeds — no fatal error is raised. -/
theorem C1_second_collision_retries_again :
    create_wb_thing_raw true () none
        [ApiAns.err "failed-save" collisionInfo, ApiAns.ok "",
         ApiAns.err "failed-save" collisionInfo, ApiAns.ok "", ApiAns.ok "Q42"]
        []
      = .ok ("Q42", [],
          [WBAction.newEntity true, WBAction.clearEntity "Q42",
           WBAction.editEntity "Q42", WBAction.clearEntity "Q42",
           WBAction.editEntity "Q42"]) := by
  rfl

/-- C1 (amended): on a collision answer whose info embeds the bracketed
reference, `create_wb_thing_raw` extracts the identifier, clears it
(one oracle answer) and retries targeting it; a successful answer
returns the remote's entity id.  This holds at every recursion level —
in particular a collision on the retry triggers the same protocol again
instead of failing fatally (only a non-collision error, or a collision
without an extractable reference, raises). -/
theorem C1_collision_clear_and_retry {α : Type} (item : Bool) (data : α)
    (code info clearTok q : String) (rest : List ApiAns) (tr : List WBAction)
    (h1 : hasSub " already has " info = true)
    (h2 : patSearch (if item then "[[Item:" else "[[Property:")
        (if item then 'Q' else 'P') info = some q) :
    (create_wb_thing_raw item data none
        (ApiAns.err code info :: ApiAns.ok clearTok :: rest) tr
      = create_wb_thing_raw item data (some q) rest
          ((tr ++ [editAction none item]) ++ [WBAction.clearEntity q]))
  ∧ (∀ (wbId : Option String) (eid : String) (rest2 : List ApiAns)
        (tr2 : List WBAction),
      create_wb_thing_raw item data wbId (ApiAns.ok eid :: rest2) tr2
        = .ok (eid, rest2, tr2 ++ [editAction wbId item])) := by
  constructor
  · simp [create_wb_thing_raw, h1, h2]
  · intro wbId eid rest2 tr2; rfl

/-- Witness for C1: a single collision referencing `Q42` leads to a
clear of `Q42` and a retry targeting `Q42`, which returns `Q42`. -/
theorem C1_collision_clear_and_retry_witness :
    (create_wb_thing_raw true () none
        [ApiAns.err "failed-save" collisionInfo, ApiAns.ok "", ApiAns.ok "Q42"]
        []
      = create_wb_thing_raw true () (some "Q42") [ApiAns.ok "Q42"]
          (([] ++ [editAction none true]) ++ [WBAction.clearEntity "Q42"]))
  ∧ create_wb_thing_raw true () (some "Q42") [ApiAns.ok "Q42"]
        [WBAction.newEntity true, WBAction.clearEntity "Q42"]
      = .ok ("Q42", [], [WBAction.newEntity true, WBAction.clearEntity "Q42"]
          ++ [editAction (some "Q42") true]) := by
  have h := C1_collision_clear_and_retry true () "failed-save" collisionInfo
    "" "Q42" [ApiAns.ok "Q42"] [] (by decide) (by decide)
  exact ⟨h.1, h.2 (some "Q42") "Q42" []
    [WBAction.newEntity true, WBAction.clearEntity "Q42"]⟩

/- ## Claim C2 — literal claim typing -/

/-- A predicate URI resolved to `P10` in the C2 scenario. -/
def predC2 : String := "http://example.org/vocab/linksTo"

def subjC2 : Node := uriNode "http://example.org/thing"

def stC2 : Store := [(uriNode predC2, "P10")]

def gC2 : Graph := ⟨[]⟩

/-- C2, evaluated at the failing input: the claim (and spec) say a
literal whose text is a syntactically valid URL produces a url-typed
claim; but `create_claim` feeds `validators.url` the literal's `.n3()`
serialization, which wraps the text in double quotes and therefore never
validates — so the literal `"http://example.org"` produces a
string-typed claim (value-type and datatype both `string`), exactly like
`"not a url"`.  The first two conjuncts exhibit the discrepancy: the
bare text is a valid URL, its N3 form is not. -/
theorem C2_url_literal_claim_is_string_typed :
    validators_url "http://example.org" = true
  ∧ validators_url (n3Obj (Obj.lit ⟨"http://example.org", none⟩)) = false
  ∧ create_claim gC2 stC2 "Q1" subjC2 predC2
        (Obj.lit ⟨"http://example.org", none⟩)
      = .ok [⟨"Q1", "P10", "value", "string", .str "http://example.org",
             "string", "normal"⟩]
  ∧ create_claim gC2 stC2 "Q1" subjC2 predC2 (Obj.lit ⟨"not a url", none⟩)
      = .ok [⟨"Q1", "P10", "value", "string", .str "not a url",
             "string", "normal"⟩] := by
  exact ⟨by decide, by decide, rfl, rfl⟩

/- ## Claim C3 — node classification -/

/-- A blank node declared as an `owl:Class`. -/
def nC3blank : Node := ⟨true, "b0"⟩

def gC3 : Graph := ⟨[(nC3blank, RDF_type, owlClassO)]⟩

/-- C3 counterexample: the claim says classification is decided in the
order class → property → skip, so a type set containing the class type
would yield Item; but `convert` consults `skip_subj` first, so a blank
node declared as `owl:Class` is skipped, not classified as an item. -/
theorem C3_blank_class_node_skipped :
    classify_subj gC3 nC3blank = NodeClass.skip
  ∧ NodeClass.skip ≠ NodeClass.item := by
  exact ⟨rfl, by decide⟩

/-- C3 (amended): classification is total and decided in this order:
a blank node or a node whose URI is the base URI yields Skip (checked
first, before any type inspection); otherwise a type set containing
`owl:Class` yields Item; otherwise containing `owl:ObjectProperty` or
`owl:DatatypeProperty` yields Property; otherwise containing
`owl:Ontology` yields Skip; any other type set is fatal — and in that
case `create_ont_wb_thing` indeed raises the unknown-type error
(`exit(1)`) rather than skipping. -/
theorem C3_classification_order (g : Graph) (s : Node) :
    (skip_subj s = true → classify_subj g s = .skip)
  ∧ (skip_subj s = false → owlClassO ∈ typesOf g s →
      classify_subj g s = .item)
  ∧ (skip_subj s = false → owlClassO ∉ typesOf g s →
      (owlObjPropO ∈ typesOf g s ∨ owlDtPropO ∈ typesOf g s) →
      classify_subj g s = .property)
  ∧ (skip_subj s = false → owlClassO ∉ typesOf g s →
      owlObjPropO ∉ typesOf g s → owlDtPropO ∉ typesOf g s →
      owlOntologyO ∈ typesOf g s → classify_subj g s = .skip)
  ∧ (skip_subj s = false → owlClassO ∉ typesOf g s →
      owlObjPropO ∉ typesOf g s → owlDtPropO ∉ typesOf g s →
      owlOntologyO ∉ typesOf g s → classify_subj g s = .fatal)
  ∧ (owlClassO ∉ typesOf g s →
      owlObjPropO ∉ typesOf g s → owlDtPropO ∉ typesOf g s →
      owlOntologyO ∉ typesOf g s →
      ∀ (lbs dscs : List (String × String)) (answers : List ApiAns)
        (tr : List WBAction),
        collectLangTexts g s get_label_preds label_sep default_language
          = .ok lbs →
        collectLangTexts g s get_desc_preds description_sep default_language
          = .ok dscs →
        create_ont_wb_thing g s answers tr = .error (unknownTypeMsg s)) := by
  refine ⟨?_, ?_, ?_, ?_, ?_, ?_⟩
  · intro h; simp [classify_subj, h]
  · intro h h2; simp [classify_subj, h, h2]
  · intro h h2 h3; simp [classify_subj, h, h2, h3]
  · intro h h2 h3 h4 h5; simp [classify_subj, h, h2, h3, h4, h5]
  · intro h h2 h3 h4 h5; simp [classify_subj, h, h2, h3, h4, h5]
  · intro h2 h3 h4 h5 lbs dscs answers tr hl hd
    simp [create_ont_wb_thing, hl, hd, h2, h3, h4, h5]

/-- Witness for C3: a non-blank `owl:Class` node classifies as Item, and
a node with an unrecognized type set makes `create_ont_wb_thing` fail
with the unknown-type error. -/
theorem C3_classification_order_witness :
    classify_subj ⟨[(uriNode "http://example.org/C", RDF_type, owlClassO)]⟩
        (uriNode "http://example.org/C") = NodeClass.item
  ∧ create_ont_wb_thing ⟨[]⟩ (uriNode "http://example.org/U") [] []
      = .error (unknownTypeMsg (uriNode "http://example.org/U")) :=
  ⟨(C3_classification_order _ _).2.1 (by decide) (by decide),
   (C3_classification_order ⟨[]⟩ (uriNode "http://example.org/U")).2.2.2.2.2
     (by decide) (by decide) (by decide) (by decide) [] [] [] [] rfl rfl⟩

/- ## Creation-pass lemmas (shared) -/

theorem creation_pass_extends (g : Graph) :
    ∀ (subs : List Node) (st : Store) (answers : List ApiAns)
      (tr : List WBAction) (st2 : Store) (a2 : List ApiAns) (t2 : List WBAction),
      convert_creation_pass g subs st answers tr = .ok (st2, a2, t2) →
      ∃ ext, st2 = st ++ ext := by
  intro subs
  induction subs with
  | nil =>
    intro st answers tr st2 a2 t2 h
    simp [convert_creation_pass] at h
    exact ⟨[], by rw [List.append_nil]; exact h.1.symm⟩
  | cons s0 rest ih =>
    intro st answers tr st2 a2 t2 h
    by_cases hs : skip_subj s0 = true
    · simp [convert_creation_pass, hs] at h
      exact ih _ _ _ _ _ _ h
    · have hs' : skip_subj s0 = false := by simpa using hs
      by_cases hl : (storeObjects st s0).length > 0
      · simp [convert_creation_pass, hs', hl] at h
        exact ih _ _ _ _ _ _ h
      · cases hc : create_ont_wb_thing g s0 answers tr with
        | error e => simp [convert_creation_pass, hs', hl, hc] at h
        | ok val =>
          obtain ⟨w, aa, tt⟩ := val
          simp [convert_creation_pass, hs', hl, hc] at h
          obtain ⟨ext, hext⟩ := ih _ _ _ _ _ _ h
          exact ⟨(s0, litOfOptStr w) :: ext, by rw [hext]; simp [storeAdd]⟩

theorem creation_pass_covers (g : Graph) :
    ∀ (subs : List Node) (st : Store) (answers : List ApiAns)
      (tr : List WBAction) (st2 : Store) (a2 : List ApiAns) (t2 : List WBAction),
      convert_creation_pass g subs st answers tr = .ok (st2, a2, t2) →
      ∀ s ∈ subs, skip_subj s = false → storeObjects st2 s ≠ [] := by
  intro subs
  induction subs with
  | nil => intro st answers tr st2 a2 t2 h s hs; simp at hs
  | cons s0 rest ih =>
    intro st answers tr st2 a2 t2 h s hs hsf
    rcases List.mem_cons.mp hs with rfl | hmem
    · by_cases hl : (storeObjects st s).length > 0
      · simp [convert_creation_pass, hsf, hl] at h
        obtain ⟨ext, hext⟩ := creation_pass_extends g rest st answers tr st2 a2 t2 h
        rw [hext, storeObjects_append]
        intro hcontra
        have h1 : storeObjects st s = [] := (List.append_eq_nil.mp hcontra).1
        rw [h1] at hl
        simp at hl
      · cases hc : create_ont_wb_thing g s answers tr with
        | error e => simp [convert_creation_pass, hsf, hl, hc] at h
        | ok val =>
          obtain ⟨w, aa, tt⟩ := val
          simp [convert_creation_pass, hsf, hl, hc] at h
          obtain ⟨ext, hext⟩ := creation_pass_extends g rest _ aa tt st2 a2 t2 h
          rw [hext]
          simp [storeAdd, storeObjects_append, storeObjects]
    · by_cases hskip0 : skip_subj s0 = true
      · simp [convert_creation_pass, hskip0] at h
        exact ih _ _ _ _ _ _ h s hmem hsf
      · have h0' : skip_subj s0 = false := by simpa using hskip0
        by_cases hl : (storeObjects st s0).length > 0
        · simp [convert_creation_pass, h0', hl] at h
          exact ih _ _ _ _ _ _ h s hmem hsf
        · cases hc : create_ont_wb_thing g s0 answers tr with
          | error e => simp [convert_creation_pass, h0', hl, hc] at h
          | ok val =>
            obtain ⟨w, aa, tt⟩ := val
            simp [convert_creation_pass, h0', hl, hc] at h
            exact ih _ _ _ _ _ _ h s hmem hsf

theorem creation_pass_noop (g : Graph) :
    ∀ (subs : List Node) (st : Store) (answers : List ApiAns)
      (tr : List WBAction),
      (∀ s ∈ subs, skip_subj s = true ∨ storeObjects st s ≠ []) →
      convert_creation_pass g subs st answers tr = .ok (st, answers, tr) := by
  intro subs
  induction subs with
  | nil => intro st answers tr _; rfl
  | cons s0 rest ih =>
    intro st answers tr hall
    have htail : ∀ s ∈ rest, skip_subj s = true ∨ storeObjects st s ≠ [] :=
      fun s hs => hall s (List.mem_cons_of_mem _ hs)
    rcases hall s0 (List.mem_cons_self s0 rest) with h0 | h0
    · simp [convert_creation_pass, h0]
      exact ih st answers tr htail
    · have hl : (storeObjects st s0).length > 0 := List.length_pos.mpr h0
      by_cases hskip : skip_subj s0 = true
      · simp [convert_creation_pass, hskip]
        exact ih st answers tr htail
      · have h0' : skip_subj s0 = false := by simpa using hskip
        simp [convert_creation_pass, h0', hl]
        exact ih st answers tr htail

/- ## Claim C4 — re-running the creation pass is a no-op -/

/-- C4: after a completed first creation pass, every subject of the
graph is either skipped or carries a link record, so a second creation
pass over the reloaded link store changes nothing: it makes no remote
call (it consumes no oracle answer and its action trace stays empty)
and leaves the store exactly as reloaded. -/
theorem C4_second_run_creates_nothing (g : Graph) (st0 : Store)
    (ans0 : List ApiAns) (st1 : Store) (ans1 : List ApiAns)
    (tr1 : List WBAction)
    (h : convert_creation_pass g g.subjectsList st0 ans0 []
      = .ok (st1, ans1, tr1)) (ans2 : List ApiAns) :
    convert_creation_pass g g.subjectsList st1 ans2 [] = .ok (st1, ans2, []) := by
  apply creation_pass_noop
  intro s hs
  by_cases hsk : skip_subj s = true
  · exact Or.inl hsk
  · exact Or.inr
      (creation_pass_covers g _ _ _ _ _ _ _ h s hs (by simpa using hsk))

/-- A one-class graph for the C4 witness. -/
def nC4 : Node := uriNode "http://example.org/C4"

def gC4 : Graph := ⟨[(nC4, RDF_type, owlClassO)]⟩

/-- Witness for C4: after the first run created `Q1` for the single
class node, the second creation pass is a no-op. -/
theorem C4_second_run_creates_nothing_witness :
    convert_creation_pass gC4 gC4.subjectsList [(nC4, "Q1")] [] []
      = .ok ([(nC4, "Q1")], [], []) :=
  C4_second_run_creates_nothing gC4 [] [ApiAns.ok "Q1"] [(nC4, "Q1")] []
    [WBAction.newEntity true] rfl []

/- ## Claim C9 — ontology nodes are recorded as the literal "None" -/

/-- C9 (amended): for a non-blank subject whose URI is not the base URI
and whose type set contains `owl:Ontology` and none of the class or
property types, `create_ont_wb_thing` returns no identifier without any
remote call, yet the creation pass still records
`rdflib.Literal(None)` — the text `"None"` — as the subject's
identifier, and a later required resolution returns `"None"`. -/
theorem C9_ontology_node_records_none (g : Graph) (s : Node) (st : Store)
    (answers : List ApiAns) (tr : List WBAction)
    (lbs dscs : List (String × String))
    (h1 : skip_subj s = false)
    (h2 : owlOntologyO ∈ typesOf g s)
    (h3 : owlClassO ∉ typesOf g s)
    (h4 : owlObjPropO ∉ typesOf g s)
    (h5 : owlDtPropO ∉ typesOf g s)
    (h6 : collectLangTexts g s get_label_preds label_sep default_language
      = .ok lbs)
    (h7 : collectLangTexts g s get_desc_preds description_sep default_language
      = .ok dscs)
    (h8 : storeObjects st s = []) :
    create_ont_wb_thing g s answers tr = .ok (none, answers, tr)
  ∧ convert_creation_pass g [s] st answers tr
      = .ok (storeAdd st s "None", answers, tr)
  ∧ rdf2wb_id (storeAdd st s "None") s true = .ok (some "None") := by
  have hc : create_ont_wb_thing g s answers tr = .ok (none, answers, tr) := by
    simp [create_ont_wb_thing, h6, h7, h3, h4, h5, h2]
  refine ⟨hc, ?_, ?_⟩
  · simp only [convert_creation_pass, h1, h8, hc, litOfOptStr]
    simp
  · have hobj : storeObjects (storeAdd st s "None") s = ["None"] := by
      rw [storeAdd, storeObjects_append, h8]
      simp [storeObjects]
    simp [rdf2wb_id, hobj]

/-- The ontology root node of the C9 scenario. -/
def nC9 : Node := uriNode "http://example.org/okh-ontology"

def gC9 : Graph := ⟨[(nC9, RDF_type, owlOntologyO)]⟩

/-- Witness for C9: the ontology root gets the record `"None"`, and the
record resolves to the string `"None"`. -/
theorem C9_ontology_node_records_none_witness :
    create_ont_wb_thing gC9 nC9 [] [] = .ok (none, [], [])
  ∧ convert_creation_pass gC9 [nC9] [] [] []
      = .ok (storeAdd [] nC9 "None", [], [])
  ∧ rdf2wb_id (storeAdd [] nC9 "None") nC9 true = .ok (some "None") :=
  C9_ontology_node_records_none gC9 nC9 [] [] [] [] [] rfl (by decide)
    (by decide) (by decide) (by decide) rfl rfl rfl

/-- A subject typed both `owl:Ontology` and `owl:Class`. -/
def nC9b : Node := uriNode "http://example.org/ont-and-class"

def gC9b : Graph := ⟨[(nC9b, RDF_type, owlOntologyO), (nC9b, RDF_type, owlClassO)]⟩

/-- C9 counterexample: the claim quantifies over every subject whose
type set *contains* the ontology type; but a subject typed both
`owl:Ontology` and `owl:Class` takes the class branch, creates a real
entity and records its id (`"Q7"` here), not the text `"None"`. -/
theorem C9_ontology_and_class_records_real_id :
    convert_creation_pass gC9b [nC9b] [] [ApiAns.ok "Q7"] []
      = .ok ([(nC9b, "Q7")], [], [WBAction.newEntity true])
  ∧ ("Q7" : String) ≠ "None" := by
  exact ⟨rfl, by decide⟩
